import Mathlib

/-
Verification development for the Frontegg auto-sort-signups webhook service.

The repository contains several near-duplicate variants of the same webhook
pipeline.  The fullest variant (the second document inside src/unnamed/part_000)
is the invitedToTenant membership reconciler; it is embedded below in namespace
Invite.  The named file src/src/app/api/webhooks/frontegg/route.ts is the
signedUp handler; it is embedded in namespace Route.  The tenant-name
derivation helpers from src/unnamed/part_001 are embedded at top level.

External HTTP calls are modelled by an oracle (Nat -> Response) supplying the
response to the n-th outbound call of a request; the handler records every
outbound call it issues, paired with the response it received, in a trace.
JSON values are modelled by the inductive type Json; JavaScript truthiness
and string coercion are modelled by jsTruthy and jsStr (exact on the shapes
the handlers inspect: strings, numbers, booleans, null, arrays, objects).
-/

namespace FronteggWebhook

/-- Model of a parsed JSON value (JavaScript numbers restricted to integers;
no claim depends on non-integral numerics). -/
inductive Json where
  | null : Json
  | bool (b : Bool) : Json
  | num (n : Int) : Json
  | str (s : String) : Json
  | arr (elems : List Json) : Json
  | obj (fields : List (String × Json)) : Json

/-- Field lookup on an object field list (first match). -/
def lookupField : List (String × Json) → String → Option Json
  | [], _ => none
  | (k, v) :: rest, key => if k = key then some v else lookupField rest key

/-- JavaScript property access on a JSON value: defined (some) only for object
fields; property access on arrays, numbers, strings and booleans with a
non-index key yields undefined (none).  Access on null throws in JS and is
handled at each use site. -/
def jsGetField : Json → String → Option Json
  | .obj fields, key => lookupField fields key
  | _, _ => none

/-- JavaScript truthiness of a JSON value. -/
def jsTruthy : Json → Bool
  | .null => false
  | .bool b => b
  | .num n => n ≠ 0
  | .str s => s ≠ ""
  | .arr _ => true
  | .obj _ => true

/-- Truthiness of a possibly-undefined value (undefined is falsy). -/
def jsTruthyOpt : Option Json → Bool
  | none => false
  | some v => jsTruthy v

/-- JavaScript String() coercion of a JSON value (exact on the primitive
shapes; array elements that are null print as empty in JS Array join, a
nuance not exercised by any handler path). -/
def jsStr : Json → String
  | .null => "null"
  | .bool b => cond b "true" "false"
  | .num n => toString n
  | .str s => s
  | .arr _ => ""
  | .obj _ => "[object Object]"

/-- String() coercion of a possibly-undefined value. -/
def jsStrOpt : Option Json → String
  | none => "undefined"
  | some v => jsStr v

/-- JavaScript falsiness of an optional string (undefined or empty). -/
def optFalsy : Option String → Bool
  | none => true
  | some s => s = ""

/-- Model of JavaScript String.prototype.trim: strip whitespace from both
ends. -/
def jsTrim (s : String) : String :=
  ⟨((s.toList.dropWhile Char.isWhitespace).reverse.dropWhile
      Char.isWhitespace).reverse⟩

/-- Model of JavaScript String.prototype.split with a single-character
separator: splits at every occurrence, always returns at least one piece. -/
def splitOnChar (sep : Char) : List Char → List (List Char)
  | [] => [[]]
  | c :: cs =>
    let rest := splitOnChar sep cs
    if c = sep then [] :: rest
    else
      match rest with
      | [] => [[c]]
      | h :: t => (c :: h) :: t

/-- Model of JavaScript String.prototype.toLowerCase for a character
(exact on ASCII, the only range the handlers exercise). -/
def jsToLower (c : Char) : Char :=
  if 'A' ≤ c ∧ c ≤ 'Z' then Char.ofNat (c.toNat + 32) else c

/-- Model of JavaScript String.prototype.toUpperCase for a character
(exact on ASCII). -/
def jsToUpper (c : Char) : Char :=
  if 'a' ≤ c ∧ c ≤ 'z' then Char.ofNat (c.toNat - 32) else c

/-- label.charAt(0).toUpperCase() + label.slice(1) -/
def capitalizeFirst : List Char → String
  | [] => ""
  | c :: cs => ⟨jsToUpper c :: cs⟩

/-- The characters the JavaScript regex dot does not match: the ECMAScript
line terminators LF, CR, LINE SEPARATOR and PARAGRAPH SEPARATOR. -/
def isLineTerminator (c : Char) : Bool :=
  c = '\n' ∨ c = '\r' ∨ c = Char.ofNat 0x2028 ∨ c = Char.ofNat 0x2029

/-- Model of domain.replace applied to the regex matching a dot followed by
any characters, replacing with the empty string: the first dot and the run
of non-line-terminator characters after it are removed (the regex dot stops
at line terminators), everything from the first line terminator after that
dot stays; a dot-free input is unchanged. -/
def replaceDotRest : List Char → List Char
  | [] => []
  | c :: cs =>
    if c = '.' then cs.dropWhile (fun x => !isLineTerminator x)
    else c :: replaceDotRest cs

/-- part_000: function domainFromEmail — the substring after the first at
sign, lowercased; empty or missing yields "unknown"
(email.split(at)[1]?.toLowerCase() || "unknown"). -/
def domainFromEmail (email : String) : String :=
  match (splitOnChar '@' email.toList).get? 1 with
  | some d => if d = [] then "unknown" else ⟨d.map jsToLower⟩
  | none => "unknown"

/-- part_000: function labelFromDomain — the piece before the first dot
(falling back to the whole domain when that piece is empty), first
character capitalized. -/
def labelFromDomain (domain : String) : String :=
  let l0 := (splitOnChar '.' domain.toList).headD []
  let label := if l0 = [] then domain.toList else l0
  capitalizeFirst label

/-- part_001: function deriveTenantNameFromEmail — composition of the
domain extraction and label capitalization (written inline in part_001). -/
def deriveTenantNameFromEmail (email : String) : String :=
  labelFromDomain (domainFromEmail email)

/-- part_001 POST: tenantName = prehookTenantName || deriveTenantNameFromEmail(email)
(the declared, trimmed prehook tenant name wins when truthy). -/
def chooseTenantName (prehookTenantName : Option String) (email : String) : String :=
  match prehookTenantName with
  | some n => if n = "" then deriveTenantNameFromEmail email else n
  | none => deriveTenantNameFromEmail email

/-- route.ts: function domainToTenantName — same domain extraction but with
nullish (not truthiness) fallback, then the first label when longer than two
characters, else the domain with the first dot and the non-line-terminator
run after it removed (domain.replace of the regex dot-anything with the
empty string, whose dot stops at line terminators). -/
def domainToTenantName (email : String) : String :=
  let domain : List Char :=
    match (splitOnChar '@' email.toList).get? 1 with
    | some d => d.map jsToLower
    | none => "unknown".toList
  let firstLabel := (splitOnChar '.' domain).headD domain
  let pretty := if 2 < firstLabel.length then firstLabel
    else replaceDotRest domain
  capitalizeFirst pretty

/-- One outbound HTTP call to the identity platform, identified by endpoint
and the request parameters the handler supplies. -/
inductive ApiCall where
  | vendorAuth : ApiCall
  | tenantsList (filter : String) (limit : Nat) : ApiCall
  | tenantCreate (name : String) : ApiCall
  | appAssign (appId tenantId : String) : ApiCall
  | userAddById (userId tenantId : String) : ApiCall
  | bulkInvite (tenantId email : String) : ApiCall
  | userRemove (userId tenantId : String) : ApiCall
  | tenantUsersList (tenantId : String) (offset limit : Nat) : ApiCall
  | userDisable (tenantId userId : String) : ApiCall

/-- An HTTP response from the platform. -/
structure Response where
  status : Nat
  body : Json

/-- fetch Response.ok: status in the inclusive range 200..299. -/
def Response.isOk (r : Response) : Bool := 200 ≤ r.status && r.status ≤ 299

/-- The recorded interaction of one request: each outbound call paired with
the response it received, in issue order. -/
abbrev Trace := List (ApiCall × Response)

/-- The environment decides the response to the n-th outbound call. -/
abbrev Oracle := Nat → Response

/-- The cached vendor session: token and absolute expiry instant. -/
structure Cache where
  token : String
  expiresAt : Int

/-- Request-processing state: the trace so far plus the process-wide vendor
token cache slot. -/
structure St where
  calls : Trace
  cache : Option Cache

/-- Issue one outbound call: look up the oracle response for the current
position and record the pair. -/
def emit (o : Oracle) (c : ApiCall) (s : St) : Response × St :=
  let r := o s.calls.length
  (r, { s with calls := s.calls ++ [(c, r)] })

/-- Environment-variable configuration, with the empty string standing for an
unset variable (the code only tests truthiness and uses the raw value), plus
the Date.now() instant of the request. -/
structure Env where
  now : Int
  clientId : String
  apiKey : String
  webhookSecret : String
  defaultAppId : String
  defaultSrcTenantId : String
  dryRunVar : String

/-- An inbound webhook request: secret header value (empty when missing) and
the JSON.parse result of the body (none when parsing raised). -/
structure Req where
  header : String
  body : Option Json

/-- The handler outcome: HTTP response status plus the outbound calls made. -/
structure HttpResult where
  status : Nat
  calls : Trace

namespace Invite

/-
Embedding of the second document of src/unnamed/part_000: the
frontegg.user.invitedToTenant membership reconciler.
-/

/-- part_000 verifySecret: missing header or secret rejects; plain equality
accepts; otherwise jwt.verify of the header against the secret decides
(modelled by the abstract signed-assertion validity predicate jwtVerifies). -/
def verifySecret (header secret : String) (jwtVerifies : String → String → Bool) : Bool :=
  if header = "" ∨ secret = "" then false
  else if header = secret then true
  else jwtVerifies header secret

/-- Canonical event record extracted by part_000 extractEvent. -/
structure EventInfo where
  key : String
  userId : Option String
  email : Option String
  prehookTenantName : Option String
  tenantId : Option String

/-- part_000 extractEvent: eventKey at top level, userId from
eventContext.userId falling back to user.id, tenantId from eventContext only,
email from user.email trimmed; the prehook tenant name is always undefined
for invitation events. -/
def extractEvent (payload : Json) : EventInfo :=
  let context := match jsGetField payload "eventContext" with
    | some (.obj fields) => some fields
    | _ => none
  let user := match jsGetField payload "user" with
    | some (.obj fields) => some fields
    | _ => none
  let getStr := fun (fields : Option (List (String × Json))) (k : String) =>
    match fields with
    | some fs =>
      match lookupField fs k with
      | some (.str s) => some s
      | _ => none
    | none => none
  { key := match jsGetField payload "eventKey" with
      | some (.str s) => s
      | _ => ""
    userId := (getStr context "userId").orElse fun _ => getStr user "id"
    email := (getStr user "email").map jsTrim
    prehookTenantName := none
    tenantId := getStr context "tenantId" }

/-- Vendor token cache TTL: six hours in milliseconds. -/
def vendorTokenTTL : Int := 6 * 60 * 60 * 1000

/-- part_000 getVendorToken: serve from the cache while unexpired; otherwise
require client credentials, call the vendor auth endpoint, require a truthy
token field, and refill the cache. -/
def getVendorToken (o : Oracle) (env : Env) (s : St) : Except String String × St :=
  let cached := match s.cache with
    | some c => if env.now < c.expiresAt then some c.token else none
    | none => none
  match cached with
  | some t => (.ok t, s)
  | none =>
    if env.clientId = "" ∨ env.apiKey = "" then
      (.error "CONFIG: Missing FRONTEGG_CLIENT_ID or FRONTEGG_API_KEY", s)
    else
      let (r, s1) := emit o .vendorAuth s
      if r.isOk = false then (.error "AUTH_VENDOR", s1)
      else if jsTruthyOpt (jsGetField r.body "token") = false then
        (.error "AUTH_VENDOR: token missing", s1)
      else
        let tok := jsStrOpt (jsGetField r.body "token")
        (.ok tok, { s1 with cache := some ⟨tok, env.now + vendorTokenTTL⟩ })

/-- Pure part of part_000 findTenantByName: a bare array response is the item
list, an object with an items array uses that, anything else is empty; the
result is the first item, with a JSON null first item behaving like no match
(the caller applies the nullish-coalescing create fallback to it). -/
def parseFoundTenant (body : Json) : Option Json :=
  let items : List Json := match body with
    | .arr xs => xs
    | .obj fields =>
      match lookupField fields "items" with
      | some (.arr xs) => xs
      | _ => []
    | _ => []
  match items.head? with
  | some .null => none
  | some v => some v
  | none => none

/-- part_000 findTenantByName: one tenants listing call with the free-text
filter and limit 1; non-success raises; otherwise the parsed first match. -/
def findTenantByName (o : Oracle) (_token name : String) (s : St) :
    Except String (Option Json) × St :=
  let (r, s1) := emit o (.tenantsList name 1) s
  if r.isOk = false then (.error "TENANTS_V2", s1)
  else (.ok (parseFoundTenant r.body), s1)

/-- part_000 createTenant: one tenant-creation call; non-success raises;
otherwise the response body is the created tenant. -/
def createTenant (o : Oracle) (_token name : String) (s : St) :
    Except String Json × St :=
  let (r, s1) := emit o (.tenantCreate name) s
  if r.isOk = false then (.error "TENANTS_CREATE", s1)
  else (.ok r.body, s1)

/-- part_000 ensureAppAssigned: skipped without a configured app id; one
assignment call otherwise, where 409 (already assigned) counts as success. -/
def ensureAppAssigned (o : Oracle) (_token appId tenantId : String) (s : St) :
    Except String Unit × St :=
  if appId = "" then (.ok (), s)
  else
    let (r, s1) := emit o (.appAssign appId tenantId) s
    if r.isOk = false ∧ r.status ≠ 409 then (.error "APP_ASSIGN", s1)
    else (.ok (), s1)

/-- part_000 addUserToTenantById: one attach-by-id call; success on a 2xx
status or on 409 (already in tenant); raises otherwise. -/
def addUserToTenantById (o : Oracle) (_token userId tenantId : String) (s : St) :
    Except String Unit × St :=
  let (r, s1) := emit o (.userAddById userId tenantId) s
  if r.isOk then (.ok (), s1)
  else if r.status = 409 then (.ok (), s1)
  else (.error "ADD_USER_TO_TENANT", s1)

/-- part_000 removeUserFromTenant: one tenant-scoped delete call; success on
a 2xx status or on 404 (not in that tenant); raises otherwise. -/
def removeUserFromTenant (o : Oracle) (_token userId tenantId : String) (s : St) :
    Except String Unit × St :=
  let (r, s1) := emit o (.userRemove userId tenantId) s
  if r.isOk then (.ok (), s1)
  else if r.status = 404 then (.ok (), s1)
  else (.error "REMOVE_USER", s1)

/-- Numeric values among the total, totalCount, count and recordsTotal fields
of a listing response object. -/
def totalsOf (fields : List (String × Json)) : List Int :=
  [lookupField fields "total", lookupField fields "totalCount",
   lookupField fields "count", lookupField fields "recordsTotal"].filterMap
    fun v => match v with
      | some (.num n) => some n
      | _ => none

/-- Pure decision of part_000 isSecondOrLaterUserInTenant over the listing
response body: an array counts its elements; an object prefers the largest
explicit total-style numeric field, else counts an items array; every other
shape reports false. -/
def countAtLeastTwo (body : Json) : Bool :=
  match body with
  | .arr xs => 2 ≤ xs.length
  | .obj fields =>
    match totalsOf fields with
    | t :: ts => 2 ≤ ts.foldl max t
    | [] =>
      match lookupField fields "items" with
      | some (.arr xs) => 2 ≤ xs.length
      | _ => false
  | _ => false

/-- part_000 isSecondOrLaterUserInTenant: one paginated tenant-users listing
call with offset 0 and limit 2; non-success raises; otherwise the pure
at-least-two decision on the body. -/
def isSecondOrLaterUserInTenant (o : Oracle) (_token tenantId : String) (s : St) :
    Except String Bool × St :=
  let (r, s1) := emit o (.tenantUsersList tenantId 0 2) s
  if r.isOk = false then (.error "TENANT_USERS", s1)
  else (.ok (countAtLeastTwo r.body), s1)

/-- part_000 disableUserInTenant: one tenant-scoped disable call; any
non-success raises. -/
def disableUserInTenant (o : Oracle) (_token tenantId userId : String) (s : St) :
    Except String Unit × St :=
  let (r, s1) := emit o (.userDisable tenantId userId) s
  if r.isOk = false then (.error "DISABLE_USER", s1)
  else (.ok (), s1)

/-- JavaScript property access tenant.tenantId followed by string coercion:
raises a TypeError on null (caught by the surrounding try), yields the
coerced field (undefined coerces to "undefined") otherwise. -/
def tenantIdAccess : Json → Except String String
  | .null => .error "TypeError"
  | t => .ok (jsStrOpt (jsGetField t "tenantId"))

/-- First half of the try block of part_000 POST: vendor token, find or
create the tenant, then the optional app assignment; yields the bearer token
and the target tenant id.  A JSON null created tenant makes the tenantId
property access raise a TypeError, caught by the surrounding try. -/
def resolveStage (o : Oracle) (env : Env) (tenantName : String) (s0 : St) :
    Except String (String × String) × St :=
  match getVendorToken o env s0 with
  | (.error e, s) => (.error e, s)
  | (.ok token, s) =>
  match findTenantByName o token tenantName s with
  | (.error e, s) => (.error e, s)
  | (.ok found, s) =>
  match (match found with
    | some t => (Except.ok t, s)
    | none => createTenant o token tenantName s) with
  | (.error e, s) => (.error e, s)
  | (.ok tenant, s) =>
  match tenantIdAccess tenant with
  | .error e => (.error e, s)
  | .ok tgt =>
  match ensureAppAssigned o token env.defaultAppId tgt s with
  | (.error e, s) => (.error e, s)
  | (.ok _, s) => (.ok (token, tgt), s)

/-- Second half of the try block of part_000 POST: only with a truthy
userId, add to the target tenant, remove from the source tenant, then
disable when the target tenant already has a second-or-later user. -/
def membershipStage (o : Oracle) (token srcTenantId tgt : String)
    (userId : Option String) (s0 : St) : Except String Unit × St :=
  match userId with
  | none => (.ok (), s0)
  | some uid =>
  if uid = "" then (.ok (), s0)
  else
  match addUserToTenantById o token uid tgt s0 with
  | (.error e, s) => (.error e, s)
  | (.ok _, s) =>
  match removeUserFromTenant o token uid srcTenantId s with
  | (.error e, s) => (.error e, s)
  | (.ok _, s) =>
  match isSecondOrLaterUserInTenant o token tgt s with
  | (.error e, s) => (.error e, s)
  | (.ok notFirst, s) =>
  if notFirst then
    match disableUserInTenant o token tgt uid s with
    | (.error e, s) => (.error e, s)
    | (.ok _, s) => (.ok (), s)
  else (.ok (), s)

/-- The try block of part_000 POST: resolution stage then membership
stage; a raise at any step aborts every later step. -/
def tryBlock (o : Oracle) (env : Env) (srcTenantId tenantName : String)
    (userId : Option String) (s0 : St) : Except String Unit × St :=
  match resolveStage o env tenantName s0 with
  | (.error e, s) => (.error e, s)
  | (.ok (token, tgt), s) =>
    membershipStage o token srcTenantId tgt userId s

/-- part_000 POST: signature gate, JSON gate, event-kind gate, source-tenant
configuration gate, tenant-id presence and match gates, email gate, dry-run
gate, then the reconciliation try block (200 on success, 500 on any raise). -/
def POST (env : Env) (jwtVerifies : String → String → Bool) (o : Oracle)
    (cache0 : Option Cache) (req : Req) : HttpResult :=
  if verifySecret req.header env.webhookSecret jwtVerifies = false then
    ⟨401, []⟩
  else match req.body with
  | none => ⟨400, []⟩
  | some payload =>
    let e := extractEvent payload
    if e.key ≠ "frontegg.user.invitedToTenant" then ⟨204, []⟩
    else if env.defaultSrcTenantId = "" then ⟨500, []⟩
    else match e.tenantId with
    | none => ⟨400, []⟩
    | some tid =>
      if tid = "" then ⟨400, []⟩
      else if tid ≠ env.defaultSrcTenantId then ⟨204, []⟩
      else if optFalsy e.email then ⟨200, []⟩
      else
        let email := e.email.getD ""
        let tenantName := match e.prehookTenantName with
          | some n => if n = "" then labelFromDomain (domainFromEmail email) else n
          | none => labelFromDomain (domainFromEmail email)
        if env.dryRunVar = "1" then ⟨200, []⟩
        else
          match tryBlock o env env.defaultSrcTenantId tenantName e.userId ⟨[], cache0⟩ with
          | (.ok _, s) => ⟨200, s.calls⟩
          | (.error _, s) => ⟨500, s.calls⟩

end Invite

namespace Route

/-
Embedding of src/src/app/api/webhooks/frontegg/route.ts: the
frontegg.user.signedUp handler with bulk-invite-by-email attachment.
-/

/-- route.ts verifyWebhook: pre-shared-key equality only — truthy header,
truthy configured secret, byte equality (no signed-token fallback). -/
def verifyWebhook (header secret : String) : Bool :=
  header ≠ "" && secret ≠ "" && header == secret

/-- Optional chaining step: access a property of a possibly-undefined value,
short-circuiting on undefined and on JSON null. -/
def chainField (v : Option Json) (key : String) : Option Json :=
  match v with
  | some .null => none
  | some j => jsGetField j key
  | none => none

/-- route.ts getVendorToken: one vendor auth call, raising on non-success;
the token field is returned without a presence check. -/
def getVendorToken (o : Oracle) (s : St) : Except String String × St :=
  let (r, s1) := emit o .vendorAuth s
  if r.isOk = false then (.error "Vendor auth failed", s1)
  else (.ok (jsStrOpt (jsGetField r.body "token")), s1)

/-- Pure part of route.ts findTenantByName: items is the items field when
that is an array, else the whole body; the result is items indexed at 0 with
JavaScript semantics (array head, object field "0", string character 0;
null and undefined index results behave like no match at the
nullish-coalescing use site). -/
def parseFoundTenant (body : Json) : Option Json :=
  let items : Json := match body with
    | .obj fields =>
      match lookupField fields "items" with
      | some (.arr xs) => .arr xs
      | _ => body
    | _ => body
  match items with
  | .arr xs =>
    match xs.head? with
    | some .null => none
    | some v => some v
    | none => none
  | .obj fields =>
    match lookupField fields "0" with
    | some .null => none
    | some v => some v
    | none => none
  | .str s =>
    match s.toList.head? with
    | some c => some (.str c.toString)
    | none => none
  | _ => none

/-- route.ts findTenantByName: one tenants listing call with the free-text
filter and limit 1; non-success raises; otherwise the parsed first match. -/
def findTenantByName (o : Oracle) (_token name : String) (s : St) :
    Except String (Option Json) × St :=
  let (r, s1) := emit o (.tenantsList name 1) s
  if r.isOk = false then (.error "Get tenants failed", s1)
  else (.ok (parseFoundTenant r.body), s1)

/-- route.ts createTenant: one tenant-creation call; non-success raises. -/
def createTenant (o : Oracle) (_token name : String) (s : St) :
    Except String Json × St :=
  let (r, s1) := emit o (.tenantCreate name) s
  if r.isOk = false then (.error "Create tenant failed", s1)
  else (.ok r.body, s1)

/-- route.ts ensureAppAssignedToTenant: skipped without a configured app id;
409 (already assigned) counts as success. -/
def ensureAppAssignedToTenant (o : Oracle) (_token appId tenantId : String) (s : St) :
    Except String Unit × St :=
  if appId = "" then (.ok (), s)
  else
    let (r, s1) := emit o (.appAssign appId tenantId) s
    if r.isOk = false ∧ r.status ≠ 409 then (.error "Assign app failed", s1)
    else (.ok (), s1)

/-- route.ts addUserToTenantByEmail: one bulk-invite call for the email into
the tenant; any non-success raises (the invited display name is not an
identifying call parameter and is not recorded). -/
def addUserToTenantByEmail (o : Oracle) (_token tenantId email : String) (s : St) :
    Except String Unit × St :=
  let (r, s1) := emit o (.bulkInvite tenantId email) s
  if r.isOk = false then (.error "Bulk invite failed", s1)
  else (.ok (), s1)

/-- Fixed domain-to-tenant-name overrides table; empty in the source. -/
def DOMAIN_OVERRIDES : List (String × String) := []

/-- The route.ts event-kind test: event.key is strictly equal to the
signedUp event key (false for a missing or non-string key). -/
def keyIsSignedUp (event : Json) : Bool :=
  match jsGetField event "key" with
  | some (.str k) => k == "frontegg.user.signedUp"
  | _ => false

/-- The try block of route.ts POST: vendor token, find-or-create tenant,
optional app assignment, then bulk-invite the user by email.  A JSON null
created tenant makes the tenantId property access raise a TypeError, caught
by the surrounding try. -/
def tryBlock (o : Oracle) (env : Env) (targetName email : String) (s0 : St) :
    Except String Unit × St :=
  match getVendorToken o s0 with
  | (.error e, s) => (.error e, s)
  | (.ok token, s) =>
  match findTenantByName o token targetName s with
  | (.error e, s) => (.error e, s)
  | (.ok found, s) =>
  match (match found with
    | some t => (Except.ok t, s)
    | none => createTenant o token targetName s) with
  | (.error e, s) => (.error e, s)
  | (.ok tenant, s) =>
  match tenant with
  | .null => (.error "TypeError", s)
  | _ =>
  let tgt := jsStrOpt (jsGetField tenant "tenantId")
  match ensureAppAssignedToTenant o token env.defaultAppId tgt s with
  | (.error e, s) => (.error e, s)
  | (.ok _, s) =>
  match addUserToTenantByEmail o token tgt email s with
  | (.error e, s) => (.error e, s)
  | (.ok _, s) => (.ok (), s)

/-- route.ts POST: signature gate, JSON gate, signedUp event-kind gate (a
JSON null body makes the key property access raise an uncaught TypeError,
reported as a framework 500), email gate (falsy email is a 400; a truthy
non-string email raises an uncaught TypeError at split, a framework 500),
then target-name computation and the reconciliation try block. -/
def POST (env : Env) (o : Oracle) (req : Req) : HttpResult :=
  if verifyWebhook req.header env.webhookSecret = false then ⟨401, []⟩
  else match req.body with
  | none => ⟨400, []⟩
  | some .null => ⟨500, []⟩
  | some event =>
    if keyIsSignedUp event = false then ⟨204, []⟩
    else
      let userV := chainField (jsGetField event "data") "user"
      let emailV := chainField userV "email"
      if jsTruthyOpt emailV = false then ⟨400, []⟩
      else match emailV with
      | some (.str email) =>
        let domain := match (splitOnChar '@' email.toList).get? 1 with
          | some d => ⟨d.map jsToLower⟩
          | none => ("" : String)
        let targetName := ((DOMAIN_OVERRIDES.lookup domain).getD
          (domainToTenantName email))
        match tryBlock o env targetName email ⟨[], none⟩ with
        | (.ok _, s) => ⟨200, s.calls⟩
        | (.error _, s) => ⟨500, s.calls⟩
      | _ => ⟨500, []⟩

end Route

/-- Trace entry classifiers, one per outbound endpoint of interest. -/
def isListPair (p : ApiCall × Response) : Bool :=
  match p.1 with
  | .tenantsList _ _ => true
  | _ => false

/-- Classifier for tenant-creation entries. -/
def isCreatePair (p : ApiCall × Response) : Bool :=
  match p.1 with
  | .tenantCreate _ => true
  | _ => false

/-- Classifier for tenant-users listing entries (the Population Oracle). -/
def isUsersPair (p : ApiCall × Response) : Bool :=
  match p.1 with
  | .tenantUsersList _ _ _ => true
  | _ => false

/-- Classifier for user-disable entries. -/
def isDisablePair (p : ApiCall × Response) : Bool :=
  match p.1 with
  | .userDisable _ _ => true
  | _ => false

/-- A trace segment free of membership-mutating and membership-observing
calls: no add, remove, users listing, or disable. -/
def membershipFree (tr : Trace) : Bool :=
  tr.all fun p =>
    match p.1 with
    | .userAddById _ _ => false
    | .userRemove _ _ => false
    | .tenantUsersList _ _ _ => false
    | .userDisable _ _ => false
    | _ => true

/-- Idempotent-success set of the add step: any 2xx, or 409. -/
def addSuccess (r : Response) : Bool := r.isOk || r.status == 409

/-- Idempotent-success set of the remove step: any 2xx, or 404. -/
def removeSuccess (r : Response) : Bool := r.isOk || r.status == 404

/-- The possible membership-call tails of one reconciliation for user uid,
source tenant src and target tenant tgt, appended to the prefix pre: the add
call with a failed response and nothing after it; add succeeded and the
remove call failed, nothing after it; add and remove succeeded and the
population query follows, with the disable call present exactly when that
query returned success and reported a second-or-later user. -/
def TailShape (uid src tgt : String) (pre tr : Trace) : Prop :=
  (∃ ra, tr = pre ++ [((ApiCall.userAddById uid tgt), ra)]
    ∧ addSuccess ra = false)
  ∨ (∃ ra rr, tr = pre ++ [((ApiCall.userAddById uid tgt), ra),
      ((ApiCall.userRemove uid src), rr)]
    ∧ addSuccess ra = true ∧ removeSuccess rr = false)
  ∨ (∃ ra rr ru, tr = pre ++ [((ApiCall.userAddById uid tgt), ra),
      ((ApiCall.userRemove uid src), rr),
      ((ApiCall.tenantUsersList tgt 0 2), ru)]
    ∧ addSuccess ra = true ∧ removeSuccess rr = true
    ∧ (ru.isOk = false ∨ Invite.countAtLeastTwo ru.body = false))
  ∨ (∃ ra rr ru rd, tr = pre ++ [((ApiCall.userAddById uid tgt), ra),
      ((ApiCall.userRemove uid src), rr),
      ((ApiCall.tenantUsersList tgt 0 2), ru),
      ((ApiCall.userDisable tgt uid), rd)]
    ∧ addSuccess ra = true ∧ removeSuccess rr = true
    ∧ ru.isOk = true ∧ Invite.countAtLeastTwo ru.body = true)

/-- Shape of a full reconciliation trace for user uid and source tenant src:
a membership-free prefix (auth, lookup, create, assign), either ending there
(an earlier step raised) or followed by a membership tail for some target
tenant. -/
def ReconShape (uid src : String) (tr : Trace) : Prop :=
  ∃ pre tgt, membershipFree pre = true ∧ (tr = pre ∨ TailShape uid src tgt pre tr)

/-
Characterization lemmas: each external-call helper appends exactly its one
call to the trace, with the result decided by that call's response; the
resolution and membership stages are then characterized by the shapes of the
trace segments they append.
-/

lemma find_state (o : Oracle) (tok nm : String) (s : St) :
    Invite.findTenantByName o tok nm s =
      ((if (o s.calls.length).isOk = true
          then Except.ok (Invite.parseFoundTenant (o s.calls.length).body)
          else Except.error "TENANTS_V2"),
       { s with calls := s.calls ++ [((ApiCall.tenantsList nm 1), o s.calls.length)] }) := by
  simp only [Invite.findTenantByName, emit]
  split_ifs with h1 <;> simp_all

lemma create_state (o : Oracle) (tok nm : String) (s : St) :
    Invite.createTenant o tok nm s =
      ((if (o s.calls.length).isOk = true then Except.ok (o s.calls.length).body
        else Except.error "TENANTS_CREATE"),
       { s with calls := s.calls ++ [((ApiCall.tenantCreate nm), o s.calls.length)] }) := by
  simp only [Invite.createTenant, emit]
  split_ifs with h1 <;> simp_all

lemma ensureApp_state (o : Oracle) (tok appId tid : String) (s : St) :
    Invite.ensureAppAssigned o tok appId tid s =
      if appId = "" then (Except.ok (), s)
      else ((if (o s.calls.length).isOk = false ∧ (o s.calls.length).status ≠ 409
          then Except.error "APP_ASSIGN" else Except.ok ()),
        { s with calls := s.calls ++ [((ApiCall.appAssign appId tid), o s.calls.length)] }) := by
  simp only [Invite.ensureAppAssigned, emit]
  split_ifs <;> simp_all

lemma addUser_state (o : Oracle) (tok uid tgt : String) (s : St) :
    Invite.addUserToTenantById o tok uid tgt s =
      ((if addSuccess (o s.calls.length) = true then Except.ok ()
        else Except.error "ADD_USER_TO_TENANT"),
       { s with calls := s.calls ++ [((ApiCall.userAddById uid tgt), o s.calls.length)] }) := by
  simp only [Invite.addUserToTenantById, emit, addSuccess, Bool.or_eq_true, beq_iff_eq]
  split_ifs with h1 h2 h3 h4 <;> simp_all

lemma removeUser_state (o : Oracle) (tok uid src : String) (s : St) :
    Invite.removeUserFromTenant o tok uid src s =
      ((if removeSuccess (o s.calls.length) = true then Except.ok ()
        else Except.error "REMOVE_USER"),
       { s with calls := s.calls ++ [((ApiCall.userRemove uid src), o s.calls.length)] }) := by
  simp only [Invite.removeUserFromTenant, emit, removeSuccess, Bool.or_eq_true, beq_iff_eq]
  split_ifs with h1 h2 h3 h4 <;> simp_all

lemma users_state (o : Oracle) (tok tgt : String) (s : St) :
    Invite.isSecondOrLaterUserInTenant o tok tgt s =
      ((if (o s.calls.length).isOk = true
          then Except.ok (Invite.countAtLeastTwo (o s.calls.length).body)
          else Except.error "TENANT_USERS"),
       { s with calls := s.calls ++ [((ApiCall.tenantUsersList tgt 0 2), o s.calls.length)] }) := by
  simp only [Invite.isSecondOrLaterUserInTenant, emit]
  split_ifs with h1 <;> simp_all

lemma disable_state (o : Oracle) (tok tgt uid : String) (s : St) :
    Invite.disableUserInTenant o tok tgt uid s =
      ((if (o s.calls.length).isOk = true then Except.ok ()
        else Except.error "DISABLE_USER"),
       { s with calls := s.calls ++ [((ApiCall.userDisable tgt uid), o s.calls.length)] }) := by
  simp only [Invite.disableUserInTenant, emit]
  split_ifs with h1 <;> simp_all

lemma pair_ite {α β : Type} (c : Prop) [Decidable c] (a b : α) (s : β) :
    ((if c then a else b), s) = if c then (a, s) else (b, s) := by
  split_ifs <;> rfl

lemma membershipStage_tail (o : Oracle) (tok src tgt uid : String) (s : St)
    (h : uid ≠ "") :
    TailShape uid src tgt s.calls
      (Invite.membershipStage o tok src tgt (some uid) s).2.calls := by
  simp only [Invite.membershipStage, h, if_neg, if_false]
  rw [addUser_state, pair_ite]
  split_ifs with ha
  · simp only []
    rw [removeUser_state, pair_ite]
    split_ifs with hr
    · simp only []
      rw [users_state, pair_ite]
      split_ifs with hu
      · simp only []
        split_ifs with hn
        · rw [disable_state, pair_ite]
          split_ifs with hd
          · simp only [TailShape]
            simp only [List.append_assoc, List.singleton_append, List.cons_append,
              List.nil_append]
            exact Or.inr (Or.inr (Or.inr ⟨_, _, _, _, rfl,
              by simpa using ha, by simpa using hr, by simpa using hu, by simpa using hn⟩))
          · simp only [TailShape]
            simp only [List.append_assoc, List.singleton_append, List.cons_append,
              List.nil_append]
            exact Or.inr (Or.inr (Or.inr ⟨_, _, _, _, rfl,
              by simpa using ha, by simpa using hr, by simpa using hu, by simpa using hn⟩))
        · simp only [TailShape]
          simp only [List.append_assoc, List.singleton_append, List.cons_append,
            List.nil_append]
          exact Or.inr (Or.inr (Or.inl ⟨_, _, _, rfl,
            by simpa using ha, by simpa using hr, Or.inr (by simpa using hn)⟩))
      · simp only [TailShape]
        simp only [List.append_assoc, List.singleton_append, List.cons_append,
          List.nil_append]
        exact Or.inr (Or.inr (Or.inl ⟨_, _, _, rfl,
          by simpa using ha, by simpa using hr, Or.inl (by simpa using hu)⟩))
    · simp only [TailShape]
      simp only [List.append_assoc, List.singleton_append, List.cons_append,
        List.nil_append]
      exact Or.inr (Or.inl ⟨_, _, rfl, by simpa using ha, by simpa using hr⟩)
  · simp only [TailShape]
    exact Or.inl ⟨_, rfl, by simpa using ha⟩

lemma getVendorToken_calls (o : Oracle) (env : Env) (s : St) :
    (Invite.getVendorToken o env s).2.calls = s.calls ∨
    (Invite.getVendorToken o env s).2.calls =
      s.calls ++ [((ApiCall.vendorAuth), o s.calls.length)] := by
  simp only [Invite.getVendorToken, emit]
  rcases hsc : s.cache with _ | c <;> simp only [hsc] <;> split_ifs <;> simp

lemma firstNonNull (l : List Json) (t : Json)
    (h : (match l.head? with
      | some Json.null => none
      | some v => some v
      | none => none) = some t) : t ≠ Json.null := by
  rcases l with _ | ⟨v, rest⟩
  · simp at h
  · rcases v <;> simp_all <;> rintro rfl <;> simp_all

lemma parseFound_ne_null (b : Json) (t : Json)
    (h : Invite.parseFoundTenant b = some t) : t ≠ Json.null := by
  simp only [Invite.parseFoundTenant] at h
  exact firstNonNull _ t h

lemma tenantIdAccess_of_ne_null (t : Json) (h : t ≠ Json.null) :
    Invite.tenantIdAccess t = Except.ok (jsStrOpt (jsGetField t "tenantId")) := by
  rcases t <;> simp_all [Invite.tenantIdAccess]

lemma resolveStage_spec (o : Oracle) (env : Env) (nm : String) (cache0 : Option Cache)
    (res : Except String (String × String)) (st : St)
    (heq : Invite.resolveStage o env nm ⟨[], cache0⟩ = (res, st)) :
    membershipFree st.calls = true
    ∧ st.calls.countP isUsersPair = 0
    ∧ st.calls.countP isDisablePair = 0
    ∧ (∀ n lim r, ((ApiCall.tenantsList n lim), r) ∈ st.calls → r.isOk = true →
        ((Invite.parseFoundTenant r.body = none →
            st.calls.countP isCreatePair = 1 ∧ st.calls.countP isListPair = 1)
         ∧ (∀ t, Invite.parseFoundTenant r.body = some t →
            st.calls.countP isCreatePair = 0 ∧ st.calls.countP isListPair = 1
            ∧ (∀ p, res = Except.ok p → p.2 = jsStrOpt (jsGetField t "tenantId"))))) := by
  have hc := getVendorToken_calls o env ⟨[], cache0⟩
  unfold Invite.resolveStage at heq
  rcases hgv : Invite.getVendorToken o env ⟨[], cache0⟩ with ⟨res1, s1⟩
  rw [hgv] at hc heq
  simp only [List.nil_append, List.length_nil] at hc
  rcases res1 with e | tok
  · simp only [] at heq
    cases heq
    rcases hc with hc | hc <;>
      simp_all [membershipFree, isUsersPair, isDisablePair, isCreatePair,
        isListPair, List.countP_append, List.countP_cons]
  · simp only [] at heq
    rw [find_state] at heq
    split_ifs at heq with hfOk
    · rcases hfound : Invite.parseFoundTenant (o s1.calls.length).body with _ | t
      · rw [hfound] at heq
        simp only [] at heq
        rw [create_state] at heq
        split_ifs at heq with hcOk
        · simp only [] at heq
          split at heq
          · cases heq
            rcases hc with hc | hc <;>
              simp_all [membershipFree, isUsersPair, isDisablePair, isCreatePair,
                isListPair, List.countP_append, List.countP_cons]
          · rw [ensureApp_state] at heq
            split_ifs at heq with happ hfail
            · simp only [] at heq
              cases heq
              rcases hc with hc | hc <;>
                simp_all [membershipFree, isUsersPair, isDisablePair, isCreatePair,
                  isListPair, List.countP_append, List.countP_cons]
            · simp only [] at heq
              cases heq
              rcases hc with hc | hc <;>
                simp_all [membershipFree, isUsersPair, isDisablePair, isCreatePair,
                  isListPair, List.countP_append, List.countP_cons]
            · simp only [] at heq
              cases heq
              rcases hc with hc | hc <;>
                simp_all [membershipFree, isUsersPair, isDisablePair, isCreatePair,
                  isListPair, List.countP_append, List.countP_cons]
        · simp only [] at heq
          cases heq
          rcases hc with hc | hc <;>
            simp_all [membershipFree, isUsersPair, isDisablePair, isCreatePair,
              isListPair, List.countP_append, List.countP_cons]
      · rw [hfound] at heq
        simp only [] at heq
        rw [tenantIdAccess_of_ne_null t (parseFound_ne_null _ t hfound)] at heq
        simp only [] at heq
        rw [ensureApp_state] at heq
        split_ifs at heq with happ hfail
        · simp only [] at heq
          cases heq
          rcases hc with hc | hc <;>
            simp_all [membershipFree, isUsersPair, isDisablePair, isCreatePair,
              isListPair, List.countP_append, List.countP_cons]
        · simp only [] at heq
          cases heq
          rcases hc with hc | hc <;>
            simp_all [membershipFree, isUsersPair, isDisablePair, isCreatePair,
              isListPair, List.countP_append, List.countP_cons]
        · simp only [] at heq
          cases heq
          rcases hc with hc | hc <;>
            simp_all [membershipFree, isUsersPair, isDisablePair, isCreatePair,
              isListPair, List.countP_append, List.countP_cons]
    · simp only [] at heq
      cases heq
      rcases hc with hc | hc <;>
        simp_all [membershipFree, isUsersPair, isDisablePair, isCreatePair,
          isListPair, List.countP_append, List.countP_cons]

lemma extractEvent_prehook (payload : Json) :
    (Invite.extractEvent payload).prehookTenantName = none := rfl

lemma membershipStage_falsy (o : Oracle) (tok src tgt : String)
    (userId : Option String) (s : St) (h : optFalsy userId = true) :
    Invite.membershipStage o tok src tgt userId s = (Except.ok (), s) := by
  rcases userId with _ | uid <;> simp_all [Invite.membershipStage, optFalsy]

lemma POST_gates (env : Env) (jwtVerifies : String → String → Bool) (o : Oracle)
    (cache0 : Option Cache) (header : String) (payload : Json)
    (hver : Invite.verifySecret header env.webhookSecret jwtVerifies = true)
    (hkey : (Invite.extractEvent payload).key = "frontegg.user.invitedToTenant")
    (hsrc : env.defaultSrcTenantId ≠ "")
    (htid : (Invite.extractEvent payload).tenantId = some env.defaultSrcTenantId)
    (hemail : optFalsy (Invite.extractEvent payload).email = false)
    (hdry : env.dryRunVar ≠ "1") :
    Invite.POST env jwtVerifies o cache0 ⟨header, some payload⟩ =
      (match Invite.tryBlock o env env.defaultSrcTenantId
          (labelFromDomain (domainFromEmail ((Invite.extractEvent payload).email.getD "")))
          (Invite.extractEvent payload).userId ⟨[], cache0⟩ with
        | (.ok _, s) => ⟨200, s.calls⟩
        | (.error _, s) => ⟨500, s.calls⟩) := by
  unfold Invite.POST
  simp [hver, hkey, hsrc, htid, hemail, hdry, extractEvent_prehook]


/-
Claim theorems.
-/

lemma no_add_of_membershipFree {l : Trace} {u t : String} {r : Response}
    (hfree : membershipFree l = true)
    (hmem : ((ApiCall.userAddById u t), r) ∈ l) : False := by
  simp only [membershipFree, List.all_eq_true] at hfree
  simpa using hfree _ hmem

lemma no_users_of_countP {l : Trace} {t : String} {off lim : Nat} {r : Response}
    (hz : l.countP isUsersPair = 0)
    (hmem : ((ApiCall.tenantUsersList t off lim), r) ∈ l) : False := by
  have := List.countP_eq_zero.mp hz _ hmem
  simp [isUsersPair] at this

/-- C1: in the membership reconciler the steps run in the fixed order
add, then remove-from-source-tenant, then conditional disable: for every
authenticated actionable invitation event with a known userId, the trace is a
membership-free prefix, optionally followed by the add call; the remove call
appears only after an add call whose response was in the idempotent-success
set; the population query appears only after a successful remove; the disable
call appears only after a successful population query reporting a
second-or-later user; and when the add response is a failure nothing after
the add call is issued. -/
theorem c1_reconciler_step_ordering (env : Env) (jwtVerifies : String → String → Bool) (o : Oracle)
    (cache0 : Option Cache) (header : String) (payload : Json) (uid : String)
    (hver : Invite.verifySecret header env.webhookSecret jwtVerifies = true)
    (hkey : (Invite.extractEvent payload).key = "frontegg.user.invitedToTenant")
    (hsrc : env.defaultSrcTenantId ≠ "")
    (htid : (Invite.extractEvent payload).tenantId = some env.defaultSrcTenantId)
    (hemail : optFalsy (Invite.extractEvent payload).email = false)
    (hdry : env.dryRunVar ≠ "1")
    (huid : (Invite.extractEvent payload).userId = some uid)
    (huid2 : uid ≠ "") :
    ReconShape uid env.defaultSrcTenantId
      (Invite.POST env jwtVerifies o cache0 ⟨header, some payload⟩).calls := by
  rw [POST_gates env jwtVerifies o cache0 header payload hver hkey hsrc htid hemail hdry]
  rcases htb : Invite.tryBlock o env env.defaultSrcTenantId
      (labelFromDomain (domainFromEmail ((Invite.extractEvent payload).email.getD "")))
      (Invite.extractEvent payload).userId ⟨[], cache0⟩ with ⟨rtb, stb⟩
  have hgoal : (match ((rtb, stb) : Except String Unit × St) with
      | (.ok _, s) => (⟨200, s.calls⟩ : HttpResult)
      | (.error _, s) => ⟨500, s.calls⟩).calls = stb.calls := by
    rcases rtb <;> simp
  rw [hgoal]
  unfold Invite.tryBlock at htb
  rcases hrs : Invite.resolveStage o env
      (labelFromDomain (domainFromEmail ((Invite.extractEvent payload).email.getD "")))
      ⟨[], cache0⟩ with ⟨res, st⟩
  have hspec := resolveStage_spec o env _ cache0 res st hrs
  rw [hrs] at htb
  rcases res with e | ⟨tok, tgt⟩
  · simp only [] at htb
    rcases htb
    exact ⟨_, "", hspec.1, Or.inl rfl⟩
  · simp only [] at htb
    rw [huid] at htb
    have htail := membershipStage_tail o tok env.defaultSrcTenantId tgt uid st huid2
    rw [htb] at htail
    exact ⟨_, tgt, hspec.1, Or.inr htail⟩

/-- C3: disable-gating — for every reconciliation whose population query
succeeded, the disable call is issued exactly once when the query response
reports at least two members and never when it does not (in particular for a
response reporting exactly one member); when the user identifier is falsy
the population query and the disable call are never issued at all. -/
theorem c3_disable_gating (env : Env) (jwtVerifies : String → String → Bool) (o : Oracle)
    (cache0 : Option Cache) (header : String) (payload : Json)
    (hver : Invite.verifySecret header env.webhookSecret jwtVerifies = true)
    (hkey : (Invite.extractEvent payload).key = "frontegg.user.invitedToTenant")
    (hsrc : env.defaultSrcTenantId ≠ "")
    (htid : (Invite.extractEvent payload).tenantId = some env.defaultSrcTenantId)
    (hemail : optFalsy (Invite.extractEvent payload).email = false)
    (hdry : env.dryRunVar ≠ "1") :
    (∀ t off lim r, ((ApiCall.tenantUsersList t off lim), r) ∈
        (Invite.POST env jwtVerifies o cache0 ⟨header, some payload⟩).calls →
      r.isOk = true →
      (Invite.POST env jwtVerifies o cache0 ⟨header, some payload⟩).calls.countP isDisablePair
        = (if Invite.countAtLeastTwo r.body then 1 else 0))
    ∧ (optFalsy (Invite.extractEvent payload).userId = true →
      (Invite.POST env jwtVerifies o cache0 ⟨header, some payload⟩).calls.countP isUsersPair = 0
      ∧ (Invite.POST env jwtVerifies o cache0 ⟨header, some payload⟩).calls.countP isDisablePair = 0) := by
  rw [POST_gates env jwtVerifies o cache0 header payload hver hkey hsrc htid hemail hdry]
  rcases htb : Invite.tryBlock o env env.defaultSrcTenantId
      (labelFromDomain (domainFromEmail ((Invite.extractEvent payload).email.getD "")))
      (Invite.extractEvent payload).userId ⟨[], cache0⟩ with ⟨rtb, stb⟩
  have hgoal : (match ((rtb, stb) : Except String Unit × St) with
      | (.ok _, s) => (⟨200, s.calls⟩ : HttpResult)
      | (.error _, s) => ⟨500, s.calls⟩).calls = stb.calls := by
    rcases rtb <;> simp
  rw [hgoal]
  unfold Invite.tryBlock at htb
  rcases hrs : Invite.resolveStage o env
      (labelFromDomain (domainFromEmail ((Invite.extractEvent payload).email.getD "")))
      ⟨[], cache0⟩ with ⟨res, st⟩
  have hspec := resolveStage_spec o env _ cache0 res st hrs
  rw [hrs] at htb
  rcases res with e | ⟨tok, tgt⟩
  · simp only [] at htb
    rcases htb
    exact ⟨fun t off lim r hmem _ => absurd (no_users_of_countP hspec.2.1 hmem) id,
      fun _ => ⟨hspec.2.1, hspec.2.2.1⟩⟩
  · simp only [] at htb
    by_cases huf : optFalsy (Invite.extractEvent payload).userId = true
    · rw [membershipStage_falsy o tok env.defaultSrcTenantId tgt _ st huf] at htb
      rcases htb
      exact ⟨fun t off lim r hmem _ => absurd (no_users_of_countP hspec.2.1 hmem) id,
        fun _ => ⟨hspec.2.1, hspec.2.2.1⟩⟩
    · rcases hu : (Invite.extractEvent payload).userId with _ | uid
      · rw [hu] at huf
        simp [optFalsy] at huf
      · have huid2 : uid ≠ "" := by
          rw [hu] at huf
          simpa [optFalsy] using huf
        rw [hu] at htb
        have htail := membershipStage_tail o tok env.defaultSrcTenantId tgt uid st huid2
        rw [htb] at htail
        refine ⟨?_, fun h => absurd (by simpa [ optFalsy] using h : uid = "") huid2⟩
        intro t off lim r hmem hok
        have hdz := hspec.2.2.1
        have huz := hspec.2.1
        rcases htail with ⟨ra, hT, hra⟩ | ⟨ra, rr, hT, hra, hrr⟩ |
          ⟨ra, rr, ru, hT, hra, hrr, hru⟩ | ⟨ra, rr, ru, rd, hT, hra, hrr, hru, hru2⟩ <;>
          rw [hT] at hmem ⊢ <;>
          simp only [List.mem_append, List.mem_cons, List.mem_singleton,
            List.not_mem_nil, or_false, Prod.mk.injEq] at hmem
        · rcases hmem with hmem | ⟨h1, h2⟩
          · exact absurd (no_users_of_countP huz hmem) id
          · exact absurd h1 (by simp)
        · rcases hmem with hmem | ⟨h1, h2⟩ | ⟨h1, h2⟩
          · exact absurd (no_users_of_countP huz hmem) id
          · exact absurd h1 (by simp)
          · exact absurd h1 (by simp)
        · rcases hmem with hmem | ⟨h1, h2⟩ | ⟨h1, h2⟩ | ⟨h1, h2⟩
          · exact absurd (no_users_of_countP huz hmem) id
          · exact absurd h1 (by simp)
          · exact absurd h1 (by simp)
          · cases h1
            cases h2
            rcases hru with hru | hru
            · rw [hok] at hru
              cases hru
            · rw [hru]
              simp [List.countP_append, List.countP_cons, isDisablePair, hdz]
        · rcases hmem with hmem | ⟨h1, h2⟩ | ⟨h1, h2⟩ | ⟨h1, h2⟩ | ⟨h1, h2⟩
          · exact absurd (no_users_of_countP huz hmem) id
          · exact absurd h1 (by simp)
          · exact absurd h1 (by simp)
          · cases h1
            cases h2
            rw [hru2]
            simp [List.countP_append, List.countP_cons, isDisablePair, hdz]
          · exact absurd h1 (by simp)

/-- C9: resolver find-or-create — for every reconciliation in which the
tenants lookup succeeded: if the lookup parsed to no match, exactly one
tenant-create call and exactly one lookup call appear in the trace; if it
parsed to a match, zero create calls and exactly one lookup call appear, and
every add-to-tenant call targets the matched tenant record. -/
theorem c9_resolver_find_or_create (env : Env) (jwtVerifies : String → String → Bool) (o : Oracle)
    (cache0 : Option Cache) (header : String) (payload : Json)
    (hver : Invite.verifySecret header env.webhookSecret jwtVerifies = true)
    (hkey : (Invite.extractEvent payload).key = "frontegg.user.invitedToTenant")
    (hsrc : env.defaultSrcTenantId ≠ "")
    (htid : (Invite.extractEvent payload).tenantId = some env.defaultSrcTenantId)
    (hemail : optFalsy (Invite.extractEvent payload).email = false)
    (hdry : env.dryRunVar ≠ "1") :
    ∀ n lim r, ((ApiCall.tenantsList n lim), r) ∈
        (Invite.POST env jwtVerifies o cache0 ⟨header, some payload⟩).calls →
      r.isOk = true →
      ((Invite.parseFoundTenant r.body = none →
          (Invite.POST env jwtVerifies o cache0 ⟨header, some payload⟩).calls.countP isCreatePair = 1
          ∧ (Invite.POST env jwtVerifies o cache0 ⟨header, some payload⟩).calls.countP isListPair = 1)
       ∧ (∀ t, Invite.parseFoundTenant r.body = some t →
          (Invite.POST env jwtVerifies o cache0 ⟨header, some payload⟩).calls.countP isCreatePair = 0
          ∧ (Invite.POST env jwtVerifies o cache0 ⟨header, some payload⟩).calls.countP isListPair = 1
          ∧ (∀ u2 t2 r2, ((ApiCall.userAddById u2 t2), r2) ∈
              (Invite.POST env jwtVerifies o cache0 ⟨header, some payload⟩).calls →
            t2 = jsStrOpt (jsGetField t "tenantId")))) := by
  rw [POST_gates env jwtVerifies o cache0 header payload hver hkey hsrc htid hemail hdry]
  rcases htb : Invite.tryBlock o env env.defaultSrcTenantId
      (labelFromDomain (domainFromEmail ((Invite.extractEvent payload).email.getD "")))
      (Invite.extractEvent payload).userId ⟨[], cache0⟩ with ⟨rtb, stb⟩
  have hgoal : (match ((rtb, stb) : Except String Unit × St) with
      | (.ok _, s) => (⟨200, s.calls⟩ : HttpResult)
      | (.error _, s) => ⟨500, s.calls⟩).calls = stb.calls := by
    rcases rtb <;> simp
  rw [hgoal]
  unfold Invite.tryBlock at htb
  rcases hrs : Invite.resolveStage o env
      (labelFromDomain (domainFromEmail ((Invite.extractEvent payload).email.getD "")))
      ⟨[], cache0⟩ with ⟨res, st⟩
  have hspec := resolveStage_spec o env _ cache0 res st hrs
  rw [hrs] at htb
  rcases res with e | ⟨tok, tgt⟩
  · simp only [] at htb
    rcases htb
    intro n lim r hmem hok
    refine ⟨fun hnone => (hspec.2.2.2 n lim r hmem hok).1 hnone, ?_⟩
    intro t hsome
    refine ⟨((hspec.2.2.2 n lim r hmem hok).2 t hsome).1, ((hspec.2.2.2 n lim r hmem hok).2 t hsome).2.1, ?_⟩
    intro u2 t2 r2 hmem2
    exact absurd (no_add_of_membershipFree hspec.1 hmem2) id
  · simp only [] at htb
    by_cases huf : optFalsy (Invite.extractEvent payload).userId = true
    · rw [membershipStage_falsy o tok env.defaultSrcTenantId tgt _ st huf] at htb
      rcases htb
      intro n lim r hmem hok
      refine ⟨fun hnone => (hspec.2.2.2 n lim r hmem hok).1 hnone, ?_⟩
      intro t hsome
      refine ⟨((hspec.2.2.2 n lim r hmem hok).2 t hsome).1, ((hspec.2.2.2 n lim r hmem hok).2 t hsome).2.1, ?_⟩
      intro u2 t2 r2 hmem2
      exact absurd (no_add_of_membershipFree hspec.1 hmem2) id
    · rcases hu : (Invite.extractEvent payload).userId with _ | uid
      · rw [hu] at huf
        simp [optFalsy] at huf
      · have huid2 : uid ≠ "" := by
          rw [hu] at huf
          simpa [optFalsy] using huf
        rw [hu] at htb
        have htail := membershipStage_tail o tok env.defaultSrcTenantId tgt uid st huid2
        rw [htb] at htail
        have hstb : ∃ tail, stb.calls = st.calls ++ tail
            ∧ tail.countP isCreatePair = 0 ∧ tail.countP isListPair = 0
            ∧ (∀ n2 lim2 r2, ((ApiCall.tenantsList n2 lim2), r2) ∉ tail)
            ∧ (∀ u2 t2 r2, ((ApiCall.userAddById u2 t2), r2) ∈ tail → t2 = tgt) := by
          rcases htail with ⟨ra, hT, _⟩ | ⟨ra, rr, hT, _, _⟩ |
            ⟨ra, rr, ru, hT, _, _, _⟩ | ⟨ra, rr, ru, rd, hT, _, _, _, _⟩ <;>
            exact ⟨_, hT, by simp [isCreatePair, isListPair], by simp [isCreatePair, isListPair],
              by intro n2 lim2 r2 hc; simp [Prod.mk.injEq] at hc,
              by intro u2 t2 r2 hc; simp [Prod.mk.injEq] at hc; simp [hc]⟩
        rcases hstb with ⟨tail, hT, hc0, hl0, hnl, hadd⟩
        rw [hT]
        intro n lim r hmem hok
        have hmem' : ((ApiCall.tenantsList n lim), r) ∈ st.calls := by
          rcases List.mem_append.mp hmem with h | h
          · exact h
          · exact absurd h (hnl n lim r)
        have h4 := hspec.2.2.2 n lim r hmem' hok
        refine ⟨fun hnone => ?_, fun t hsome => ?_⟩
        · refine ⟨?_, ?_⟩ <;> simp [List.countP_append, hc0, hl0, (h4.1 hnone).1, (h4.1 hnone).2]
        · refine ⟨?_, ?_, ?_⟩
          · simp [List.countP_append, hc0, ((h4.2) t hsome).1]
          · simp [List.countP_append, hl0, ((h4.2) t hsome).2.1]
          · intro u2 t2 r2 hmem2
            rcases List.mem_append.mp hmem2 with h | h
            · exact absurd (no_add_of_membershipFree hspec.1 h) id
            · rw [hadd u2 t2 r2 h]
              exact (((h4.2) t hsome).2.2 (tok, tgt) rfl : (tok, tgt).2 = _)

/-- C2: each mutating sub-step whitelists exactly its idempotent-success
status codes — addUserToTenantById returns success exactly when the platform
responds with a 2xx status (the fetch ok range 200..299) or with 409, and
raises for every other status; removeUserFromTenant returns success exactly
when the platform responds with a 2xx status or with 404, and raises for
every other status. -/
theorem c2_idempotent_status_whitelists (o : Oracle) (token uid tid : String) (s : St) :
    ((o s.calls.length).isOk = true ↔
      (200 ≤ (o s.calls.length).status ∧ (o s.calls.length).status ≤ 299))
    ∧ ((Invite.addUserToTenantById o token uid tid s).1 = Except.ok () ↔
      ((o s.calls.length).isOk = true ∨ (o s.calls.length).status = 409))
    ∧ ((Invite.removeUserFromTenant o token uid tid s).1 = Except.ok () ↔
      ((o s.calls.length).isOk = true ∨ (o s.calls.length).status = 404))
    ∧ (∀ m, (Invite.addUserToTenantById o token uid tid s).1 = Except.error m →
        ¬((o s.calls.length).isOk = true ∨ (o s.calls.length).status = 409))
    ∧ (∀ m, (Invite.removeUserFromTenant o token uid tid s).1 = Except.error m →
        ¬((o s.calls.length).isOk = true ∨ (o s.calls.length).status = 404)) := by
  refine ⟨by simp [Response.isOk], ?_, ?_, ?_, ?_⟩ <;>
    first
      | (rw [addUser_state]
         split_ifs with h <;>
           simp_all [addSuccess, removeSuccess, Bool.or_eq_true, beq_iff_eq])
      | (rw [removeUser_state]
         split_ifs with h <;>
           simp_all [addSuccess, removeSuccess, Bool.or_eq_true, beq_iff_eq])

/-- C4: the Population Oracle issues exactly one paginated listing call
requesting at most 2 records (offset 0, limit 2), and for every successful
listing response it returns a boolean without raising: an array response
counts its elements against 2; an object exposing explicit numeric
total-style fields compares their maximum against 2; an object without such
fields but with an items array counts those items against 2. -/
theorem c4_population_oracle (o : Oracle) (token tid : String) (s : St) :
    ((Invite.isSecondOrLaterUserInTenant o token tid s).2.calls
      = s.calls ++ [((ApiCall.tenantUsersList tid 0 2), o s.calls.length)])
    ∧ ((o s.calls.length).isOk = true →
        (Invite.isSecondOrLaterUserInTenant o token tid s).1
          = Except.ok (Invite.countAtLeastTwo (o s.calls.length).body))
    ∧ (∀ xs, Invite.countAtLeastTwo (Json.arr xs) = decide (2 ≤ xs.length))
    ∧ (∀ fields t ts, Invite.totalsOf fields = t :: ts →
        Invite.countAtLeastTwo (Json.obj fields) = decide (2 ≤ List.foldl max t ts))
    ∧ (∀ fields xs, Invite.totalsOf fields = [] →
        lookupField fields "items" = some (Json.arr xs) →
        Invite.countAtLeastTwo (Json.obj fields) = decide (2 ≤ xs.length)) := by
  refine ⟨?_, ?_, ?_, ?_, ?_⟩
  · rw [users_state]
  · intro h
    rw [users_state]
    simp [h]
  · intro xs
    simp [Invite.countAtLeastTwo]
  · intro fields t ts h
    simp [Invite.countAtLeastTwo, h]
  · intro fields xs h hitems
    simp [Invite.countAtLeastTwo, h, hitems]


/-- C5 (amended): verifySecret, the invitation-handler verifier, returns
true for nonempty header and secret exactly when the header is byte-equal to
the secret or validates as a signed token against it, and returns false
whenever the header or the configured secret is missing or empty; the
signedUp-handler verifier verifyWebhook in route.ts, however, accepts only
the byte-equal pre-shared-key form and never the signed-token form. -/
theorem c5_verifier_amended :
    (∀ (jwtVerifies : String → String → Bool) (header secret : String),
      header ≠ "" → secret ≠ "" →
      (Invite.verifySecret header secret jwtVerifies = true ↔
        (header = secret ∨ jwtVerifies header secret = true)))
    ∧ (∀ (jwtVerifies : String → String → Bool) (header secret : String),
      header = "" ∨ secret = "" →
      Invite.verifySecret header secret jwtVerifies = false)
    ∧ (∀ header secret : String,
      Route.verifyWebhook header secret = true ↔
        (header ≠ "" ∧ secret ≠ "" ∧ header = secret)) := by
  refine ⟨?_, ?_, ?_⟩
  · intro jwtVerifies header secret h1 h2
    unfold Invite.verifySecret
    rw [if_neg (by simp [h1, h2])]
    split_ifs with he <;> simp [he]
  · intro jwtVerifies header secret h
    simp [Invite.verifySecret, h]
  · intro header secret
    simp [Route.verifyWebhook, and_assoc]

/-- C5 counterexample: a header that the signed-assertion validity
predicate accepts (and verifySecret therefore accepts) is rejected by
route.ts verifyWebhook, refuting the claim that verification returns true
whenever the header validates as a signed token. -/
theorem c5_verifyWebhook_counterexample :
    Invite.verifySecret "h" "s" (fun _ _ => true) = true
    ∧ Route.verifyWebhook "h" "s" = false
    ∧ ("h" : String) ≠ "s" := by
  refine ⟨rfl, rfl, by decide⟩

/-- C10: for every authenticated, well-formed invitation payload whose
eventContext carries no truthy string tenantId, given a configured default
source tenant, the handler responds 400 and issues zero outbound calls — a
response case absent from the status-code table of the specification, which
maps tenant-scoping mismatches to 204. -/
theorem c10_missing_tenant_id (env : Env) (jwtVerifies : String → String → Bool)
    (o : Oracle) (cache0 : Option Cache) (header : String) (payload : Json)
    (hver : Invite.verifySecret header env.webhookSecret jwtVerifies = true)
    (hkey : (Invite.extractEvent payload).key = "frontegg.user.invitedToTenant")
    (hsrc : env.defaultSrcTenantId ≠ "")
    (htid : optFalsy (Invite.extractEvent payload).tenantId = true) :
    Invite.POST env jwtVerifies o cache0 ⟨header, some payload⟩ = ⟨400, []⟩ := by
  unfold Invite.POST
  rcases ht : (Invite.extractEvent payload).tenantId with _ | tid
  · simp [hver, hkey, hsrc, ht]
  · rw [ht] at htid
    have h0 : tid = "" := by simpa [optFalsy] using htid
    subst h0
    simp [hver, hkey, hsrc, ht]


/-- C6: acknowledge-and-ignore is effect-free — an authenticated,
well-formed payload whose event kind is not actionable gets a 204 with zero
outbound calls from both handlers, and an actionable invitation payload
whose declared source tenant differs from the configured default source
tenant gets a 204 with zero outbound calls. -/
theorem c6_acknowledge_ignore (env : Env) (jwtVerifies : String → String → Bool)
    (o : Oracle) (cache0 : Option Cache) (header : String) (payload : Json) :
    (Invite.verifySecret header env.webhookSecret jwtVerifies = true →
      (Invite.extractEvent payload).key ≠ "frontegg.user.signedUp" →
      (Invite.extractEvent payload).key ≠ "frontegg.user.invitedToTenant" →
      Invite.POST env jwtVerifies o cache0 ⟨header, some payload⟩ = ⟨204, []⟩)
    ∧ (∀ tid, Invite.verifySecret header env.webhookSecret jwtVerifies = true →
      (Invite.extractEvent payload).key = "frontegg.user.invitedToTenant" →
      env.defaultSrcTenantId ≠ "" →
      (Invite.extractEvent payload).tenantId = some tid →
      tid ≠ "" → tid ≠ env.defaultSrcTenantId →
      Invite.POST env jwtVerifies o cache0 ⟨header, some payload⟩ = ⟨204, []⟩)
    ∧ (Route.verifyWebhook header env.webhookSecret = true →
      payload ≠ Json.null →
      Route.keyIsSignedUp payload = false →
      Route.POST env o ⟨header, some payload⟩ = ⟨204, []⟩) := by
  refine ⟨?_, ?_, ?_⟩
  · intro hver _ hkey
    unfold Invite.POST
    simp [hver, hkey]
  · intro tid hver hkey hsrc htid h1 h2
    unfold Invite.POST
    simp [hver, hkey, hsrc, htid, h1, h2]
  · intro hver hnull hkey
    unfold Route.POST
    rcases payload <;> simp_all [hver, hkey]

/-- C7 (amended): for an authenticated, well-formed actionable payload
lacking a usable email, the invitation reconciler (after its source-tenant
gates) responds 200 with zero outbound calls; the route.ts signedUp handler,
however, responds 400 — also with zero outbound calls — rather than the 200
the specification table prescribes. -/
theorem c7_missing_email_amended (env : Env) (jwtVerifies : String → String → Bool)
    (o : Oracle) (cache0 : Option Cache) (header : String) (payload : Json) :
    (Invite.verifySecret header env.webhookSecret jwtVerifies = true →
      (Invite.extractEvent payload).key = "frontegg.user.invitedToTenant" →
      env.defaultSrcTenantId ≠ "" →
      (Invite.extractEvent payload).tenantId = some env.defaultSrcTenantId →
      optFalsy (Invite.extractEvent payload).email = true →
      Invite.POST env jwtVerifies o cache0 ⟨header, some payload⟩ = ⟨200, []⟩)
    ∧ (Route.verifyWebhook header env.webhookSecret = true →
      payload ≠ Json.null →
      Route.keyIsSignedUp payload = true →
      jsTruthyOpt (Route.chainField
        (Route.chainField (jsGetField payload "data") "user") "email") = false →
      Route.POST env o ⟨header, some payload⟩ = ⟨400, []⟩) := by
  refine ⟨?_, ?_⟩
  · intro hver hkey hsrc htid hemail
    unfold Invite.POST
    simp [hver, hkey, hsrc, htid, hemail]
  · intro hver hnull hkey hemail
    unfold Route.POST
    rcases payload <;> simp_all [hver, hkey, hemail]

/-- C7 counterexample: an authenticated, well-formed signedUp payload with
no email makes the route.ts handler respond 400, not 200, refuting the claim
that every actionable event missing a usable email is acknowledged with
status 200. -/
theorem c7_route_missing_email_counterexample :
    (Route.POST ⟨0, "", "", "s", "", "", ""⟩ (fun _ => ⟨200, Json.null⟩)
      ⟨"s", some (Json.obj [("key", Json.str "frontegg.user.signedUp")])⟩).status = 400
    ∧ (Route.POST ⟨0, "", "", "s", "", "", ""⟩ (fun _ => ⟨200, Json.null⟩)
      ⟨"s", some (Json.obj [("key", Json.str "frontegg.user.signedUp")])⟩).status ≠ 200
    ∧ (Route.POST ⟨0, "", "", "s", "", "", ""⟩ (fun _ => ⟨200, Json.null⟩)
      ⟨"s", some (Json.obj [("key", Json.str "frontegg.user.signedUp")])⟩).calls = []
    ∧ Route.verifyWebhook "s" "s" = true
    ∧ Route.keyIsSignedUp (Json.obj [("key", Json.str "frontegg.user.signedUp")]) = true := by
  refine ⟨rfl, by decide, rfl, rfl, rfl⟩


lemma splitOnChar_not_mem {sep : Char} {l : List Char} (h : sep ∉ l) :
    splitOnChar sep l = [l] := by
  induction l with
  | nil => rfl
  | cons c cs ih =>
    simp only [List.mem_cons, not_or] at h
    simp only [splitOnChar, ih h.2]
    rw [if_neg (fun hh => h.1 hh.symm)]

lemma splitOnChar_append {sep : Char} {l r : List Char} (h : sep ∉ l) :
    splitOnChar sep (l ++ sep :: r) = l :: splitOnChar sep r := by
  induction l with
  | nil => simp [splitOnChar]
  | cons c cs ih =>
    simp only [List.mem_cons, not_or] at h
    rw [List.cons_append]
    simp only [splitOnChar, List.append_eq]
    rw [ih h.2, if_neg (fun hh => h.1 hh.symm)]

lemma jsToLower_eq_of_not_lower {c d : Char}
    (hd : ¬(97 ≤ d.toNat ∧ d.toNat ≤ 122)) (h : jsToLower c = d) : c = d := by
  unfold jsToLower at h
  split_ifs at h with hr
  · exfalso
    obtain ⟨h1, h2⟩ := hr
    have hv1 : 65 ≤ c.toNat := h1
    have hv2 : c.toNat ≤ 90 := h2
    have hval : (c.toNat + 32).isValidChar := by
      left
      omega
    have hto : (Char.ofNat (c.toNat + 32)).toNat = c.toNat + 32 := by
      rw [Char.ofNat, dif_pos hval]
      simp [Char.ofNatAux, Char.toNat, UInt32.toNat, BitVec.toNat_ofNatLt]
    have := congrArg Char.toNat h
    rw [hto] at this
    exact hd ⟨by omega, by omega⟩
  · exact h

lemma jsToLower_ne_dot {c : Char} (h : c ≠ '.') : jsToLower c ≠ '.' :=
  fun heq => h (jsToLower_eq_of_not_lower (by decide) heq)

lemma jsToLower_dot : jsToLower '.' = '.' := by decide

lemma not_mem_map_jsToLower {l : List Char} (h : '.' ∉ l) :
    '.' ∉ l.map jsToLower := by
  intro hmem
  rcases List.mem_map.mp hmem with ⟨c, hc, heq⟩
  exact jsToLower_ne_dot (fun hcd => h (hcd ▸ hc)) heq

lemma jsToLower_terminator {c : Char} (h : isLineTerminator c = false) :
    isLineTerminator (jsToLower c) = false := by
  cases hlt : isLineTerminator (jsToLower c)
  · rfl
  · exfalso
    simp only [isLineTerminator, decide_eq_true_eq] at hlt
    rcases hlt with he | he | he | he <;>
      rw [jsToLower_eq_of_not_lower (by decide) he] at h <;>
      simp [isLineTerminator] at h

lemma replaceDotRest_append {l r : List Char} (h : '.' ∉ l)
    (hr : ∀ c ∈ r, isLineTerminator c = false) :
    replaceDotRest (l ++ '.' :: r) = l := by
  induction l with
  | nil =>
    simp only [List.nil_append, replaceDotRest]
    rw [if_pos trivial, List.dropWhile_eq_nil_iff]
    intro x hx
    simp [hr x hx]
  | cons c cs ih =>
    simp only [List.mem_cons, not_or] at h
    rw [List.cons_append]
    simp only [replaceDotRest]
    rw [if_neg (fun hh => h.1 hh.symm), ih h.2]

/-- C8 (amended): tenant-name derivation — for every email of the form
local at Sub.Domain.tld (at sign only before the domain, Sub nonempty and
dot-free), deriveTenantNameFromEmail (part_001) produces the substring after
the at sign, lowercased, truncated before the first dot, with its first
character capitalized; domainToTenantName (route.ts) produces the same
provided the domain after the first dot contains no line terminators (its
replace regex dot stops at line terminators, see the counterexample); and
whenever the event declares a truthy tenant name, that name is chosen and
derivation is not consulted. -/
theorem c8_tenant_name_derivation :
    (∀ (lp sub rest : List Char),
      '@' ∉ lp → '@' ∉ sub → '@' ∉ rest → '.' ∉ sub → sub ≠ [] →
      deriveTenantNameFromEmail ⟨lp ++ '@' :: (sub ++ '.' :: rest)⟩
          = capitalizeFirst (sub.map jsToLower)
      ∧ ((∀ c ∈ rest, isLineTerminator c = false) →
          domainToTenantName ⟨lp ++ '@' :: (sub ++ '.' :: rest)⟩
            = capitalizeFirst (sub.map jsToLower)))
    ∧ (∀ (n email : String), n ≠ "" → chooseTenantName (some n) email = n) := by
  constructor
  · intro lp sub rest hlp hsub hrest hdot hne
    have hrest' : '@' ∉ sub ++ '.' :: rest := by
      simp only [List.mem_append, List.mem_cons, not_or]
      exact ⟨hsub, by decide, hrest⟩
    have htl : (⟨lp ++ '@' :: (sub ++ '.' :: rest)⟩ : String).toList
        = lp ++ '@' :: (sub ++ '.' :: rest) := rfl
    have hsplit : splitOnChar '@' (lp ++ '@' :: (sub ++ '.' :: rest))
        = lp :: [sub ++ '.' :: rest] := by
      rw [splitOnChar_append hlp, splitOnChar_not_mem hrest']
    have hdomain : domainFromEmail ⟨lp ++ '@' :: (sub ++ '.' :: rest)⟩
        = ⟨(sub ++ '.' :: rest).map jsToLower⟩ := by
      unfold domainFromEmail
      rw [htl, hsplit]
      simp
    have hmap : (sub ++ '.' :: rest).map jsToLower
        = sub.map jsToLower ++ '.' :: rest.map jsToLower := by
      simp [jsToLower_dot]
    have hdotlow : '.' ∉ sub.map jsToLower := not_mem_map_jsToLower hdot
    have hsplitdot : splitOnChar '.' (sub.map jsToLower ++ '.' :: rest.map jsToLower)
        = sub.map jsToLower :: splitOnChar '.' (rest.map jsToLower) :=
      splitOnChar_append hdotlow
    have hnemap : sub.map jsToLower ≠ [] := by
      simpa using hne
    constructor
    · unfold deriveTenantNameFromEmail labelFromDomain
      rw [hdomain]
      have : ((⟨(sub ++ '.' :: rest).map jsToLower⟩ : String).toList)
          = sub.map jsToLower ++ '.' :: rest.map jsToLower := by
        rw [show ((⟨(sub ++ '.' :: rest).map jsToLower⟩ : String).toList)
            = (sub ++ '.' :: rest).map jsToLower from rfl, hmap]
      rw [this, hsplitdot]
      simp [hnemap]
    · intro hterm
      unfold domainToTenantName
      rw [htl, hsplit]
      simp only [List.get?]
      rw [hmap, hsplitdot]
      simp only [List.headD_cons]
      split_ifs with hlen
      · rfl
      · have hterm2 : ∀ c ∈ rest.map jsToLower, isLineTerminator c = false := by
          intro c hc
          rcases List.mem_map.mp hc with ⟨c0, hc0, heq⟩
          rw [← heq]
          exact jsToLower_terminator (hterm c0 hc0)
        rw [replaceDotRest_append hdotlow hterm2]
  · intro n email h
    simp [chooseTenantName, h]

/-- C8 counterexample: for the email x at ab.c LF d.com — whose first domain
label has length two and whose domain contains a line feed after the first
dot — route.ts domainToTenantName keeps everything from the line feed on,
because the replace regex dot stops at line terminators, yielding a name
that is not the claimed truncation-before-the-first-dot (which part_001
deriveTenantNameFromEmail does produce). -/
theorem c8_route_newline_counterexample :
    domainToTenantName "x@ab.c\nd.com" = "Ab\nd.com"
    ∧ ("Ab\nd.com" : String) ≠ "Ab"
    ∧ deriveTenantNameFromEmail "x@ab.c\nd.com" = "Ab" :=
  ⟨rfl, by decide, rfl⟩


/-- A demonstration environment: secret sek, source tenant src, no default
app, dry-run off. -/
def demoEnv : Env := ⟨0, "cid", "key", "sek", "", "src", ""⟩

/-- Signed-assertion predicate that accepts nothing (plain PSK deployments). -/
def demoJwt : String → String → Bool := fun _ _ => false

/-- A demonstration oracle: the tenant lookup finds T1, add and remove
succeed, and the target tenant reports a single member. -/
def demoOracle : Oracle := fun k =>
  match k with
  | 0 => ⟨200, .arr [.obj [("tenantId", .str "T1")]]⟩
  | 1 => ⟨201, .null⟩
  | 2 => ⟨200, .null⟩
  | 3 => ⟨200, .obj [("total", .num 1)]⟩
  | _ => ⟨200, .null⟩

/-- A valid cached vendor session at instant 0. -/
def demoCache : Option Cache := some ⟨"tok", 10⟩

/-- An actionable invitation payload from the configured source tenant. -/
def demoPayload : Json := .obj
  [("eventKey", .str "frontegg.user.invitedToTenant"),
   ("eventContext", .obj [("tenantId", .str "src"), ("userId", .str "u1")]),
   ("user", .obj [("email", .str "bob@acme.io")])]

/-- C1 witness: a concrete authenticated invitation for user u1 runs the
pipeline and its trace satisfies the ordering shape. -/
theorem c1_reconciler_step_ordering_witness :
    (Invite.verifySecret "sek" demoEnv.webhookSecret demoJwt = true
     ∧ (Invite.extractEvent demoPayload).key = "frontegg.user.invitedToTenant"
     ∧ demoEnv.defaultSrcTenantId ≠ ""
     ∧ (Invite.extractEvent demoPayload).tenantId = some demoEnv.defaultSrcTenantId
     ∧ optFalsy (Invite.extractEvent demoPayload).email = false
     ∧ demoEnv.dryRunVar ≠ "1"
     ∧ (Invite.extractEvent demoPayload).userId = some "u1"
     ∧ ("u1" : String) ≠ "")
    ∧ ReconShape "u1" demoEnv.defaultSrcTenantId
        (Invite.POST demoEnv demoJwt demoOracle demoCache ⟨"sek", some demoPayload⟩).calls :=
  ⟨⟨by rfl, by rfl, by decide, by rfl, by rfl, by decide, by rfl, by decide⟩,
   c1_reconciler_step_ordering demoEnv demoJwt demoOracle demoCache "sek" demoPayload "u1"
     (by rfl) (by rfl) (by decide) (by rfl) (by rfl) (by decide) (by rfl) (by decide)⟩


/-- An actionable invitation payload from the source tenant with no user
record (no email, no userId). -/
def demoPayloadNoEmail : Json := .obj
  [("eventKey", .str "frontegg.user.invitedToTenant"),
   ("eventContext", .obj [("tenantId", .str "src")])]

/-- An actionable invitation payload whose context tenant differs from the
configured source tenant. -/
def demoPayloadOtherTenant : Json := .obj
  [("eventKey", .str "frontegg.user.invitedToTenant"),
   ("eventContext", .obj [("tenantId", .str "other"), ("userId", .str "u1")]),
   ("user", .obj [("email", .str "bob@acme.io")])]

/-- A payload of a non-actionable event kind (both key conventions). -/
def demoPayloadOtherKind : Json := .obj
  [("eventKey", .str "frontegg.user.deleted"), ("key", .str "frontegg.user.deleted")]

/-- An actionable invitation payload carrying no tenant id at all. -/
def demoPayloadNoTenant : Json := .obj
  [("eventKey", .str "frontegg.user.invitedToTenant"),
   ("user", .obj [("email", .str "bob@acme.io")])]

/-- A signedUp payload for the route.ts handler with no email. -/
def demoPayloadRouteNoEmail : Json := .obj
  [("key", .str "frontegg.user.signedUp")]

/-- C3 witness: in the concrete run the population query succeeded
reporting one member, and zero disable calls appear. -/
theorem c3_disable_gating_witness :
    ((ApiCall.tenantUsersList "T1" 0 2, demoOracle 3) ∈
      (Invite.POST demoEnv demoJwt demoOracle demoCache ⟨"sek", some demoPayload⟩).calls
     ∧ (demoOracle 3).isOk = true)
    ∧ (Invite.POST demoEnv demoJwt demoOracle demoCache
        ⟨"sek", some demoPayload⟩).calls.countP isDisablePair
      = (if Invite.countAtLeastTwo (demoOracle 3).body then 1 else 0) := by
  have hcalls : (Invite.POST demoEnv demoJwt demoOracle demoCache
      ⟨"sek", some demoPayload⟩).calls
      = [((ApiCall.tenantsList "Acme" 1), demoOracle 0),
         ((ApiCall.userAddById "u1" "T1"), demoOracle 1),
         ((ApiCall.userRemove "u1" "src"), demoOracle 2),
         ((ApiCall.tenantUsersList "T1" 0 2), demoOracle 3)] := by rfl
  have hmem : (ApiCall.tenantUsersList "T1" 0 2, demoOracle 3) ∈
      (Invite.POST demoEnv demoJwt demoOracle demoCache ⟨"sek", some demoPayload⟩).calls := by
    rw [hcalls]
    exact List.mem_cons_of_mem _ (List.mem_cons_of_mem _
      (List.mem_cons_of_mem _ (List.mem_cons_self _ _)))
  refine ⟨⟨hmem, by rfl⟩, ?_⟩
  exact (c3_disable_gating demoEnv demoJwt demoOracle demoCache "sek" demoPayload
    (by rfl) (by rfl) (by decide) (by rfl) (by rfl) (by decide)).1
    "T1" 0 2 (demoOracle 3) hmem (by rfl)

/-- C9 witness: in the concrete run the lookup found tenant T1, and the
trace holds zero create calls and exactly one lookup call. -/
theorem c9_resolver_find_or_create_witness :
    ((ApiCall.tenantsList "Acme" 1, demoOracle 0) ∈
      (Invite.POST demoEnv demoJwt demoOracle demoCache ⟨"sek", some demoPayload⟩).calls
     ∧ (demoOracle 0).isOk = true
     ∧ Invite.parseFoundTenant (demoOracle 0).body
        = some (Json.obj [("tenantId", Json.str "T1")]))
    ∧ (Invite.POST demoEnv demoJwt demoOracle demoCache
        ⟨"sek", some demoPayload⟩).calls.countP isCreatePair = 0
    ∧ (Invite.POST demoEnv demoJwt demoOracle demoCache
        ⟨"sek", some demoPayload⟩).calls.countP isListPair = 1 := by
  have hcalls : (Invite.POST demoEnv demoJwt demoOracle demoCache
      ⟨"sek", some demoPayload⟩).calls
      = [((ApiCall.tenantsList "Acme" 1), demoOracle 0),
         ((ApiCall.userAddById "u1" "T1"), demoOracle 1),
         ((ApiCall.userRemove "u1" "src"), demoOracle 2),
         ((ApiCall.tenantUsersList "T1" 0 2), demoOracle 3)] := by rfl
  have hmem : (ApiCall.tenantsList "Acme" 1, demoOracle 0) ∈
      (Invite.POST demoEnv demoJwt demoOracle demoCache ⟨"sek", some demoPayload⟩).calls := by
    rw [hcalls]
    exact List.mem_cons_self _ _
  have happ := (c9_resolver_find_or_create demoEnv demoJwt demoOracle demoCache "sek"
    demoPayload (by rfl) (by rfl) (by decide) (by rfl) (by rfl) (by decide))
    "Acme" 1 (demoOracle 0) hmem (by rfl)
  have hsome := (happ.2 (Json.obj [("tenantId", Json.str "T1")]) (by rfl))
  exact ⟨⟨hmem, by rfl, by rfl⟩, hsome.1, hsome.2.1⟩

/-- C4 witness: concrete instantiations of the oracle characterization on
an array body, a total-field body and an items body. -/
theorem c4_population_oracle_witness :
    ((demoOracle 0).isOk = true
     ∧ Invite.totalsOf [("total", Json.num 1)] = 1 :: []
     ∧ Invite.totalsOf [("items", Json.arr [])] = []
     ∧ lookupField [("items", Json.arr [])] "items" = some (Json.arr []))
    ∧ (Invite.isSecondOrLaterUserInTenant demoOracle "tok" "T1" ⟨[], none⟩).1
        = Except.ok (Invite.countAtLeastTwo (demoOracle 0).body)
    ∧ Invite.countAtLeastTwo (Json.arr [Json.null, Json.null])
        = decide (2 ≤ ([Json.null, Json.null] : List Json).length)
    ∧ Invite.countAtLeastTwo (Json.obj [("total", Json.num 1)])
        = decide (2 ≤ List.foldl max 1 [])
    ∧ Invite.countAtLeastTwo (Json.obj [("items", Json.arr [])])
        = decide (2 ≤ ([] : List Json).length) :=
  ⟨⟨by rfl, by rfl, by rfl, by rfl⟩,
   (c4_population_oracle demoOracle "tok" "T1" ⟨[], none⟩).2.1 (by rfl),
   (c4_population_oracle demoOracle "tok" "T1" ⟨[], none⟩).2.2.1 [Json.null, Json.null],
   (c4_population_oracle demoOracle "tok" "T1" ⟨[], none⟩).2.2.2.1
     [("total", Json.num 1)] 1 [] (by rfl),
   (c4_population_oracle demoOracle "tok" "T1" ⟨[], none⟩).2.2.2.2
     [("items", Json.arr [])] [] (by rfl) (by rfl)⟩

/-- C5 witness: concrete instantiations of the amended verifier
characterization. -/
theorem c5_verifier_amended_witness :
    (("h" : String) ≠ "" ∧ ("s" : String) ≠ "")
    ∧ (Invite.verifySecret "h" "s" (fun _ _ => true) = true ↔
        (("h" : String) = "s" ∨ (fun (_ _ : String) => true) "h" "s" = true))
    ∧ Invite.verifySecret "" "s" (fun _ _ => true) = false
    ∧ (Route.verifyWebhook "a" "a" = true ↔
        (("a" : String) ≠ "" ∧ ("a" : String) ≠ "" ∧ ("a" : String) = "a")) :=
  ⟨⟨by decide, by decide⟩,
   c5_verifier_amended.1 (fun _ _ => true) "h" "s" (by decide) (by decide),
   c5_verifier_amended.2.1 (fun _ _ => true) "" "s" (Or.inl rfl),
   c5_verifier_amended.2.2 "a" "a"⟩

/-- C6 witness: concrete ignored payloads — a non-actionable kind on both
handlers and an invitation from tenant other — each answered 204 with an
empty trace. -/
theorem c6_acknowledge_ignore_witness :
    ((Invite.extractEvent demoPayloadOtherKind).key ≠ "frontegg.user.signedUp"
     ∧ (Invite.extractEvent demoPayloadOtherKind).key ≠ "frontegg.user.invitedToTenant"
     ∧ Route.keyIsSignedUp demoPayloadOtherKind = false
     ∧ (Invite.extractEvent demoPayloadOtherTenant).tenantId = some "other"
     ∧ ("other" : String) ≠ demoEnv.defaultSrcTenantId)
    ∧ Invite.POST demoEnv demoJwt demoOracle demoCache
        ⟨"sek", some demoPayloadOtherKind⟩ = ⟨204, []⟩
    ∧ Invite.POST demoEnv demoJwt demoOracle demoCache
        ⟨"sek", some demoPayloadOtherTenant⟩ = ⟨204, []⟩
    ∧ Route.POST demoEnv demoOracle ⟨"sek", some demoPayloadOtherKind⟩ = ⟨204, []⟩ :=
  ⟨⟨by decide, by decide, by rfl, by rfl, by decide⟩,
   (c6_acknowledge_ignore demoEnv demoJwt demoOracle demoCache "sek"
     demoPayloadOtherKind).1 (by rfl) (by decide) (by decide),
   (c6_acknowledge_ignore demoEnv demoJwt demoOracle demoCache "sek"
     demoPayloadOtherTenant).2.1 "other" (by rfl) (by rfl) (by decide) (by rfl)
     (by decide) (by decide),
   (c6_acknowledge_ignore demoEnv demoJwt demoOracle demoCache "sek"
     demoPayloadOtherKind).2.2 (by rfl) (fun h => Json.noConfusion h) (by rfl)⟩

/-- C7 witness: concrete email-less payloads — the invitation reconciler
answers 200, the route.ts handler answers 400, both with empty traces. -/
theorem c7_missing_email_amended_witness :
    (optFalsy (Invite.extractEvent demoPayloadNoEmail).email = true
     ∧ Route.keyIsSignedUp demoPayloadRouteNoEmail = true
     ∧ jsTruthyOpt (Route.chainField (Route.chainField
        (jsGetField demoPayloadRouteNoEmail "data") "user") "email") = false)
    ∧ Invite.POST demoEnv demoJwt demoOracle demoCache
        ⟨"sek", some demoPayloadNoEmail⟩ = ⟨200, []⟩
    ∧ Route.POST demoEnv demoOracle ⟨"sek", some demoPayloadRouteNoEmail⟩ = ⟨400, []⟩ :=
  ⟨⟨by rfl, by rfl, by rfl⟩,
   (c7_missing_email_amended demoEnv demoJwt demoOracle demoCache "sek"
     demoPayloadNoEmail).1 (by rfl) (by rfl) (by decide) (by rfl) (by rfl),
   (c7_missing_email_amended demoEnv demoJwt demoOracle demoCache "sek"
     demoPayloadRouteNoEmail).2 (by rfl) (fun h => Json.noConfusion h) (by rfl) (by rfl)⟩

/-- C8 witness: concrete derivation for alice at Acme.io giving Acme on
both derivation functions, and a declared name taking precedence. -/
theorem c8_tenant_name_derivation_witness :
    ('@' ∉ "alice".toList ∧ '@' ∉ "Acme".toList ∧ '@' ∉ "io".toList
     ∧ '.' ∉ "Acme".toList ∧ "Acme".toList ≠ [] ∧ ("Declared" : String) ≠ "")
    ∧ deriveTenantNameFromEmail ⟨"alice".toList ++ '@' :: ("Acme".toList ++ '.' :: "io".toList)⟩
        = capitalizeFirst ("Acme".toList.map jsToLower)
    ∧ domainToTenantName ⟨"alice".toList ++ '@' :: ("Acme".toList ++ '.' :: "io".toList)⟩
        = capitalizeFirst ("Acme".toList.map jsToLower)
    ∧ chooseTenantName (some "Declared") "x@y.z" = "Declared" :=
  ⟨⟨by decide, by decide, by decide, by decide, by decide, by decide⟩,
   (c8_tenant_name_derivation.1 "alice".toList "Acme".toList "io".toList
     (by decide) (by decide) (by decide) (by decide) (by decide)).1,
   (c8_tenant_name_derivation.1 "alice".toList "Acme".toList "io".toList
     (by decide) (by decide) (by decide) (by decide) (by decide)).2 (by decide),
   c8_tenant_name_derivation.2 "Declared" "x@y.z" (by decide)⟩

/-- C10 witness: a concrete invitation payload without tenant id is
answered 400 with an empty trace. -/
theorem c10_missing_tenant_id_witness :
    (optFalsy (Invite.extractEvent demoPayloadNoTenant).tenantId = true
     ∧ demoEnv.defaultSrcTenantId ≠ "")
    ∧ Invite.POST demoEnv demoJwt demoOracle demoCache
        ⟨"sek", some demoPayloadNoTenant⟩ = ⟨400, []⟩ :=
  ⟨⟨by rfl, by decide⟩,
   c10_missing_tenant_id demoEnv demoJwt demoOracle demoCache "sek" demoPayloadNoTenant
     (by rfl) (by rfl) (by decide) (by rfl)⟩


/-- The all-failing oracle: every call answers 500. -/
def demoOracleFail : Oracle := fun _ => ⟨500, Json.null⟩

/-- C2 witness: concrete success and failure responses exercising the add
and remove whitelists. -/
theorem c2_idempotent_status_whitelists_witness :
    ((Invite.addUserToTenantById demoOracle "tok" "u1" "T1" ⟨[], none⟩).1
        = Except.ok () ↔
      ((demoOracle 0).isOk = true ∨ (demoOracle 0).status = 409))
    ∧ ((Invite.removeUserFromTenant demoOracle "tok" "u1" "src" ⟨[], none⟩).1
        = Except.ok () ↔
      ((demoOracle 0).isOk = true ∨ (demoOracle 0).status = 404))
    ∧ ¬((demoOracleFail 0).isOk = true ∨ (demoOracleFail 0).status = 409) :=
  ⟨(c2_idempotent_status_whitelists demoOracle "tok" "u1" "T1" ⟨[], none⟩).2.1,
   (c2_idempotent_status_whitelists demoOracle "tok" "u1" "src" ⟨[], none⟩).2.2.1,
   (c2_idempotent_status_whitelists demoOracleFail "tok" "u1" "T1" ⟨[], none⟩).2.2.2.1
     "ADD_USER_TO_TENANT" (by rfl)⟩

end FronteggWebhook
